import Mathlib

/-!
Verification of the MammoViewer backend (DICOM to STL conversion service).

This file gives a shallow embedding of the core logic of the repository:

- backend/slicer_converter.py : outcome interpretation of the external
  3D Slicer run and the filesystem side effects of one conversion attempt;
- backend/dicom_processor.py  : series validation, slice sorting and
  metadata extraction;
- backend/app.py              : the ConversionJob record, its update method,
  and the background pipeline process_conversion_job, together with a static
  transcription of which job-store accesses are performed while holding the
  jobs_lock mutex.

Machine integers are modelled as Int/Nat, decimal tag values as Rat, and
fallible Python operations (float()/int() on a raw tag value, list indexing)
as Option values.  Tags of a DICOM file use a two-level Option: the outer
level is presence of the tag (hasattr), the inner level is whether the raw
value parses (a parse failure raises in Python and is modelled as the inner
none).
-/

/-! ### Substring test: the Python expression (token in stdout) -/

/-- Membership of one character list as a contiguous segment of another,
mirroring the Python substring operator.  Checked by testing the needle as
a prefix at every suffix of the haystack. -/
def hasSegment (needle : List Char) : List Char → Bool
  | [] => needle.isEmpty
  | c :: rest => needle.isPrefixOf (c :: rest) || hasSegment needle rest

/-- The literal success sentinel token printed by the generated Slicer
script on its success path (slicer_converter.py line 306). -/
def successToken : String := "SUCCESS"

/-- The Python test (SUCCESS in stdout) from slicer_converter.py line 400. -/
def containsSUCCESS (s : String) : Bool :=
  hasSegment successToken.data s.data

/-! ### Outcome interpretation of one external-tool run -/

/-- What SlicerConverter._run_slicer_script observes after the subprocess
completes normally (slicer_converter.py lines 387-398): the return code,
the captured stdout, and the contents of the error-marker file next to the
script when that file exists (none when it does not exist). -/
structure RunObservation where
  returnCode : Int
  stdout : String
  errorMarker : Option String
deriving DecidableEq

/-- The (success, message) pair returned by the converter methods. -/
structure RunResult where
  success : Bool
  message : String
deriving DecidableEq

/-- Outcome interpretation of slicer_converter.py lines 400-408: success
when the return code is 0 or stdout contains the sentinel; only otherwise
is the error marker consulted, and its contents are reported behind a
prefix; otherwise the return code is reported. -/
def run_slicer_script (obs : RunObservation) : RunResult :=
  if obs.returnCode == 0 || containsSUCCESS obs.stdout then
    ⟨true, "Conversion completed successfully"⟩
  else
    match obs.errorMarker with
    | some msg => ⟨false, "Slicer error: " ++ msg⟩
    | none => ⟨false, "Slicer script failed with code " ++ toString obs.returnCode⟩

/-- One progress-callback invocation: a percentage and a message. -/
abbrev CallbackWrite := Int × String

/-- Result of SlicerConverter.convert_dicom_to_stl together with the
sequence of progress-callback invocations it performed. -/
structure ConvertResult where
  result : RunResult
  callbackWrites : List CallbackWrite
deriving DecidableEq

/-- SlicerConverter.convert_dicom_to_stl (slicer_converter.py lines 52-127)
for a run in which the subprocess completes normally: validates the Slicer
path, reports 10 and 20 percent, runs the script, and on script success
reports 90 percent, checks that the output file exists (its size is read
only for the message), and reports 100 percent.  On script failure the
message of run_slicer_script is returned unchanged. -/
def convert_dicom_to_stl (slicerFound : Bool) (obs : RunObservation)
    (outputExists : Bool) (outputSize : Nat) : ConvertResult :=
  if !slicerFound then
    ⟨⟨false, "3D Slicer not found"⟩, []⟩
  else
    let w1 : List CallbackWrite :=
      [(10, "Preparing conversion script..."), (20, "Running 3D Slicer conversion...")]
    let r := run_slicer_script obs
    if r.success then
      let w2 := w1 ++ [((90 : Int), "Conversion complete, finalizing...")]
      if !outputExists then
        ⟨⟨false, "Conversion completed but STL file not found"⟩, w2⟩
      else
        ⟨⟨true, "Successfully created STL file (" ++ toString outputSize ++ " bytes)"⟩,
          w2 ++ [((100 : Int), "Conversion successful")]⟩
    else
      ⟨r, w1⟩

/-- C1 as the specification states it, as a predicate over one run: the run
is reported successful iff (exit code 0 or stdout contains the sentinel)
and the output file exists with nonzero size; and an existing error marker
overrides everything, yielding failure with exactly its contents. -/
def claimC1 (obs : RunObservation) (outputExists : Bool) (outputSize : Nat) : Prop :=
  ((convert_dicom_to_stl true obs outputExists outputSize).result.success = true ↔
    ((obs.returnCode = 0 ∨ containsSUCCESS obs.stdout = true) ∧
      outputExists = true ∧ 0 < outputSize)) ∧
  (∀ msg, obs.errorMarker = some msg →
    (convert_dicom_to_stl true obs outputExists outputSize).result = ⟨false, msg⟩)

/-! ### Theorems for claim C1 -/

/-- Observation with exit code 0, empty stdout, and an error marker reading
boom: the marker should override per the claim. -/
def obsMarkerBoomExitZero : RunObservation := ⟨0, "", some "boom"⟩

/-- Observation with exit code 1, empty stdout, and an error marker reading
boom: the no-success-signal path of the code. -/
def obsMarkerBoomExitOne : RunObservation := ⟨1, "", some "boom"⟩

/-- Observation with exit code 0, empty stdout and no marker. -/
def obsPlainExitZero : RunObservation := ⟨0, "", none⟩

/-- C1 counterexample: with exit code 0, an error marker reading boom, and a
nonempty output file, the code reports success, so the marker does not
override; moreover with exit code 1 the marker text is reported behind the
prefix Slicer error and not verbatim; and a zero-size output file is still
reported as success.  Each point contradicts the claim as stated. -/
theorem c1_outcome_counterexample :
    ¬ claimC1 obsMarkerBoomExitZero true 5 ∧
    (convert_dicom_to_stl true obsMarkerBoomExitZero true 5).result.success = true ∧
    (convert_dicom_to_stl true obsMarkerBoomExitOne true 5).result =
      ⟨false, "Slicer error: boom"⟩ ∧
    (convert_dicom_to_stl true obsPlainExitZero true 0).result.success = true := by
  refine ⟨fun h => ?_, by decide, by decide, by decide⟩
  have h2 := h.2 "boom" (by decide)
  have h3 : (convert_dicom_to_stl true obsMarkerBoomExitZero true 5).result.success = true := by
    decide
  rw [h2] at h3
  exact Bool.noConfusion h3

/-- Helper: the success-signal test of run_slicer_script, as a proposition. -/
theorem run_slicer_script_signal_iff (obs : RunObservation) :
    (obs.returnCode == 0 || containsSUCCESS obs.stdout) = true ↔
      (obs.returnCode = 0 ∨ containsSUCCESS obs.stdout = true) := by
  rw [Bool.or_eq_true, beq_iff_eq]

/-- Helper: run_slicer_script on a run carrying a success signal. -/
theorem run_slicer_script_of_signal (obs : RunObservation)
    (h : obs.returnCode = 0 ∨ containsSUCCESS obs.stdout = true) :
    run_slicer_script obs = ⟨true, "Conversion completed successfully"⟩ := by
  unfold run_slicer_script
  rw [if_pos ((run_slicer_script_signal_iff obs).mpr h)]

/-- Helper: run_slicer_script on a run without a success signal but with an
error marker. -/
theorem run_slicer_script_of_marker (obs : RunObservation) (msg : String)
    (h0 : obs.returnCode ≠ 0) (h1 : containsSUCCESS obs.stdout = false)
    (hm : obs.errorMarker = some msg) :
    run_slicer_script obs = ⟨false, "Slicer error: " ++ msg⟩ := by
  unfold run_slicer_script
  have hsig : ¬ ((obs.returnCode == 0 || containsSUCCESS obs.stdout) = true) := by
    rw [run_slicer_script_signal_iff]
    rintro (h | h)
    · exact h0 h
    · rw [h1] at h; exact Bool.noConfusion h
  rw [if_neg hsig, hm]

/-- C1 amended: a run is reported successful iff (exit code 0 or stdout
contains the SUCCESS sentinel) and the declared output file exists; the
file size is not checked.  The error marker does not override: it is
consulted only when neither success signal holds, and then the failure
message is the marker contents behind the prefix Slicer error. -/
theorem c1_outcome_amended (obs : RunObservation) (outputExists : Bool) (outputSize : Nat) :
    ((convert_dicom_to_stl true obs outputExists outputSize).result.success = true ↔
      ((obs.returnCode = 0 ∨ containsSUCCESS obs.stdout = true) ∧ outputExists = true)) ∧
    (∀ msg, obs.returnCode ≠ 0 → containsSUCCESS obs.stdout = false →
      obs.errorMarker = some msg →
      (convert_dicom_to_stl true obs outputExists outputSize).result =
        ⟨false, "Slicer error: " ++ msg⟩) ∧
    ((obs.returnCode = 0 ∨ containsSUCCESS obs.stdout = true) → outputExists = false →
      (convert_dicom_to_stl true obs outputExists outputSize).result =
        ⟨false, "Conversion completed but STL file not found"⟩) := by
  refine ⟨?_, ?_, ?_⟩
  · constructor
    · intro hs
      by_cases hsig : obs.returnCode = 0 ∨ containsSUCCESS obs.stdout = true
      · refine ⟨hsig, ?_⟩
        by_contra hex
        have hex2 : outputExists = false := by
          cases outputExists
          · rfl
          · exact absurd rfl hex
        have : (convert_dicom_to_stl true obs outputExists outputSize).result =
            ⟨false, "Conversion completed but STL file not found"⟩ := by
          unfold convert_dicom_to_stl
          simp only [Bool.not_true, Bool.false_eq_true, if_false,
            run_slicer_script_of_signal obs hsig, hex2, Bool.not_false, if_true]
        rw [this] at hs
        exact Bool.noConfusion hs
      · exfalso
        have h0 : ¬ obs.returnCode = 0 := fun h => hsig (Or.inl h)
        have h1 : containsSUCCESS obs.stdout = false := by
          cases hcs : containsSUCCESS obs.stdout
          · rfl
          · exact absurd (Or.inr hcs) hsig
        have hrun : (run_slicer_script obs).success = false := by
          unfold run_slicer_script
          have hsigb : ¬ ((obs.returnCode == 0 || containsSUCCESS obs.stdout) = true) := by
            rw [run_slicer_script_signal_iff]; exact hsig
          rw [if_neg hsigb]
          cases obs.errorMarker <;> rfl
        have : (convert_dicom_to_stl true obs outputExists outputSize).result =
            run_slicer_script obs := by
          unfold convert_dicom_to_stl
          simp only [Bool.not_true, Bool.false_eq_true, if_false]
          rw [if_neg (by rw [hrun]; exact Bool.noConfusion)]
        rw [this, hrun] at hs
        exact Bool.noConfusion hs
    · rintro ⟨hsig, hex⟩
      unfold convert_dicom_to_stl
      simp only [Bool.not_true, Bool.false_eq_true, if_false,
        run_slicer_script_of_signal obs hsig, hex, Bool.not_true]
      rw [if_pos trivial]
  · intro msg h0 h1 hm
    have hrun := run_slicer_script_of_marker obs msg h0 h1 hm
    unfold convert_dicom_to_stl
    simp only [Bool.not_true, Bool.false_eq_true, if_false, hrun]
  · intro hsig hex
    unfold convert_dicom_to_stl
    simp only [Bool.not_true, Bool.false_eq_true, if_false,
      run_slicer_script_of_signal obs hsig, hex, Bool.not_false]
    rfl

/-- C1 witness: the amended theorem applied to a concrete run with exit
code 1, stdout lacking the sentinel, and an error marker reading boom. -/
theorem c1_outcome_amended_witness :
    (convert_dicom_to_stl true obsMarkerBoomExitOne true 5).result =
      ⟨false, "Slicer error: boom"⟩ :=
  (c1_outcome_amended obsMarkerBoomExitOne true 5).2.1 "boom"
    (by decide) (by decide) (by decide)

/-! ### DICOM files: the data model of dicom_processor.py -/

/-- One slice file as seen through the pydicom tag reader.  For each tag the
outer Option is presence of the tag on the dataset (the Python hasattr or
getattr-with-default test); for numeric tags the inner Option is whether
the raw value parses as a number (Python float() or int() raises on a
malformed value, modelled as the inner none).  Geometry rows and columns
are total because every claim about them concerns files that carry them. -/
structure DicomFile where
  path : String
  rows : Nat
  cols : Nat
  instanceNumber : Option (Option Int)
  sliceLocation : Option (Option Rat)
  imagePositionPatient : Option (List (Option Rat))
  patientID : Option String
  studyDate : Option String
  modality : Option String
  seriesDescription : Option String
  manufacturer : Option String
  imageType : Option String
  bodyPartExamined : Option String
  pixelSpacing : Option (List (Option Rat))
  sliceThickness : Option (Option Rat)
deriving DecidableEq

/-- A default slice file with every optional tag absent, used to build
concrete fixtures compactly. -/
def blankFile (p : String) : DicomFile :=
  ⟨p, 512, 512, none, none, none, none, none, none, none, none, none, none, none, none⟩

/-! ### Slice sorting: DICOMProcessor._sort_dicom_files -/

/-- The per-file sort key of dicom_processor.py lines 235-255: integer
instance number when the tag is present, else decimal slice location, else
the third coordinate of the image position, else 0.  The whole per-file
block sits in a try/except, so a present tag whose value fails to parse
(or an image position with fewer than three coordinates) also yields 0. -/
def sortKey (f : DicomFile) : Rat :=
  match f.instanceNumber with
  | some v =>
    match v with
    | some n => (n : Rat)
    | none => 0
  | none =>
    match f.sliceLocation with
    | some v =>
      match v with
      | some q => q
      | none => 0
    | none =>
      match f.imagePositionPatient with
      | some raw =>
        match raw[2]? with
        | some (some q) => q
        | some none => 0
        | none => 0
      | none => 0

/-- Comparison of slice files by their resolved sort key. -/
def keyLE (a b : DicomFile) : Prop := sortKey a ≤ sortKey b

instance : DecidableRel keyLE :=
  fun a b => inferInstanceAs (Decidable (sortKey a ≤ sortKey b))

instance : IsTotal DicomFile keyLE :=
  ⟨fun a b => le_total (sortKey a) (sortKey b)⟩

instance : IsTrans DicomFile keyLE :=
  ⟨fun _ _ _ h h2 => le_trans h h2⟩

/-- DICOMProcessor._sort_dicom_files, dicom_processor.py lines 223-260: the
code pairs each file with its resolved key and calls the Python list sort,
which is a stable sort on the keys.  A stable sort by key is modelled by
insertion sort under the key comparison, which produces the identical
list: the unique permutation that is sorted by key and keeps the original
relative order of files with equal keys. -/
def sort_dicom_files (files : List DicomFile) : List DicomFile :=
  List.insertionSort keyLE files

/-- C6: every file resolves its key by the fallback chain (integer instance
number, else decimal slice location, else the third image-position
coordinate, else 0), and the sort is a stable by-key sort: the output is a
permutation of the input, sorted by key, and any selection of files with
pairwise equal keys keeps its original encounter order. -/
theorem c6_sort_fallback_and_stable (files : List DicomFile) :
    List.Perm (sort_dicom_files files) files ∧
    List.Sorted keyLE (sort_dicom_files files) ∧
    (∀ c, List.Sublist c files → c.Pairwise (fun a b => sortKey a = sortKey b) →
      List.Sublist c (sort_dicom_files files)) ∧
    (∀ f : DicomFile, ∀ n : Int, f.instanceNumber = some (some n) →
      sortKey f = (n : Rat)) ∧
    (∀ f : DicomFile, ∀ q : Rat, f.instanceNumber = none →
      f.sliceLocation = some (some q) → sortKey f = q) ∧
    (∀ f : DicomFile, ∀ raw : List (Option Rat), ∀ q : Rat, f.instanceNumber = none →
      f.sliceLocation = none → f.imagePositionPatient = some raw →
      raw[2]? = some (some q) → sortKey f = q) ∧
    (∀ f : DicomFile, f.instanceNumber = none → f.sliceLocation = none →
      f.imagePositionPatient = none → sortKey f = 0) := by
  refine ⟨List.perm_insertionSort keyLE files,
    List.sorted_insertionSort keyLE files, ?_, ?_, ?_, ?_, ?_⟩
  · intro c hc hp
    exact List.sublist_insertionSort (hp.imp fun h => le_of_eq h) hc
  · intro f n h
    simp [sortKey, h]
  · intro f q h1 h2
    simp [sortKey, h1, h2]
  · intro f raw q h1 h2 h3 h4
    simp [sortKey, h1, h2, h3, h4]
  · intro f h1 h2 h3
    simp [sortKey, h1, h2, h3]

/-- Path literals for the concrete fixtures. -/
def pathOf1 : String := "f1.dcm"

/-- Second fixture path. -/
def pathOf2 : String := "f2.dcm"

/-- Third fixture path. -/
def pathOf3 : String := "f3.dcm"

/-- Fourth fixture path. -/
def pathOf4 : String := "f4.dcm"

/-- Fifth fixture path. -/
def pathOf5 : String := "f5.dcm"

/-- Fixture file with instance number 3. -/
def fixA : DicomFile := { blankFile pathOf1 with instanceNumber := some (some 3) }

/-- Fixture file with no instance number and slice location 1. -/
def fixB : DicomFile := { blankFile pathOf2 with sliceLocation := some (some 1) }

/-- Fixture file with instance number 7. -/
def fixD : DicomFile := { blankFile pathOf3 with instanceNumber := some (some 7) }

/-- Second fixture file with instance number 7, an encounter-order tie. -/
def fixE : DicomFile := { blankFile pathOf4 with instanceNumber := some (some 7) }

/-- Fixture file with no sorting tags at all. -/
def fixC : DicomFile := blankFile pathOf5

/-- A five-file group with mixed key availability. -/
def fixtureGroup : List DicomFile := [fixD, fixA, fixE, fixB, fixC]

/-- C6 witness: the sort theorem applied to the concrete five-file group;
the two files tied at key 7 keep their encounter order in the output, and
the file with instance number 3 resolves its key to 3. -/
theorem c6_sort_fallback_and_stable_witness :
    List.Sublist [fixD, fixE] (sort_dicom_files fixtureGroup) ∧ sortKey fixA = 3 :=
  ⟨(c6_sort_fallback_and_stable fixtureGroup).2.2.1 [fixD, fixE]
      (by decide) (by decide),
    (c6_sort_fallback_and_stable fixtureGroup).2.2.2.1 fixA 3 (by decide)⟩

/-! ### Series validation: DICOMProcessor.validate_series -/

/-- The message produced by dicom_processor.py line 165 for a group that is
too small. -/
def insufficientMsg (n m : Nat) : String :=
  "Insufficient slices: " ++ toString n ++ " < " ++ toString m

/-- The loop of dicom_processor.py lines 174-177: walk the remaining files
and stop at the first one whose row/column dimensions differ from those of
the first file. -/
def checkDims (r c : Nat) : List DicomFile → Bool × String
  | [] => (true, "Valid series")
  | g :: rest =>
    if g.rows ≠ r ∨ g.cols ≠ c then (false, "Inconsistent image dimensions")
    else checkDims r c rest

/-- DICOMProcessor.validate_series, dicom_processor.py lines 147-182: the
series must be known, must have at least minSlices files, and all files
must share the dimensions of the first.  An empty known group would raise
an IndexError on files[0], caught by the surrounding except clause. -/
def validate_series (seriesData : List (String × List DicomFile)) (uid : String)
    (minSlices : Nat) : Bool × String :=
  match seriesData.lookup uid with
  | none => (false, "Series not found")
  | some files =>
    if files.length < minSlices then
      (false, insufficientMsg files.length minSlices)
    else
      match files with
      | [] => (false, "Validation error: list index out of range")
      | f :: rest => checkDims f.rows f.cols rest

/-- Helper: the insufficient-slices message never coincides with the
inconsistent-dimensions message. -/
theorem insufficientMsg_ne (n m : Nat) :
    insufficientMsg n m ≠ "Inconsistent image dimensions" := by
  intro h
  have h2 := congrArg (fun s => s.data.take 4) h
  simp only [insufficientMsg, String.data_append] at h2
  rw [List.append_assoc, List.append_assoc] at h2
  rw [List.take_append_of_le_length (by decide)] at h2
  exact absurd h2 (by decide)

/-- Helper: first-mismatch traversal equals the any-mismatch predicate. -/
theorem checkDims_eq (r c : Nat) (l : List DicomFile) :
    checkDims r c l =
      if ∃ g ∈ l, g.rows ≠ r ∨ g.cols ≠ c then
        ((false : Bool), "Inconsistent image dimensions")
      else ((true : Bool), "Valid series") := by
  induction l with
  | nil => simp [checkDims]
  | cons g rest ih =>
    by_cases hg : g.rows ≠ r ∨ g.cols ≠ c
    · rw [checkDims, if_pos hg, if_pos ⟨g, List.mem_cons_self g rest, hg⟩]
    · rw [checkDims, if_neg hg, ih]
      by_cases hex : ∃ x ∈ rest, x.rows ≠ r ∨ x.cols ≠ c
      · obtain ⟨x, hx, hxd⟩ := hex
        rw [if_pos ⟨x, hx, hxd⟩, if_pos ⟨x, List.mem_cons_of_mem g hx, hxd⟩]
      · rw [if_neg hex, if_neg ?_]
        rintro ⟨x, hx, hxd⟩
        rcases List.mem_cons.mp hx with hxg | hxr
        · exact hg (hxg ▸ hxd)
        · exact hex ⟨x, hxr, hxd⟩

/-- C7: for a known nonempty series group, validation reports insufficient
slices exactly when the group is smaller than the bound; otherwise it
reports inconsistent dimensions exactly when some member differs from the
first member in rows or columns, and reports a valid series exactly when
all members agree with the first.  The check is a pure function of the
store, so the group is never mutated. -/
theorem c7_validate (seriesData : List (String × List DicomFile)) (uid : String)
    (minSlices : Nat) (f : DicomFile) (rest : List DicomFile)
    (hl : seriesData.lookup uid = some (f :: rest)) :
    (validate_series seriesData uid minSlices =
        ((false : Bool), insufficientMsg (f :: rest).length minSlices) ↔
      (f :: rest).length < minSlices) ∧
    (minSlices ≤ (f :: rest).length →
      ((validate_series seriesData uid minSlices =
          ((false : Bool), "Inconsistent image dimensions")) ↔
        ∃ g ∈ f :: rest, g.rows ≠ f.rows ∨ g.cols ≠ f.cols) ∧
      ((validate_series seriesData uid minSlices = ((true : Bool), "Valid series")) ↔
        ∀ g ∈ f :: rest, g.rows = f.rows ∧ g.cols = f.cols)) := by
  unfold validate_series
  rw [hl]
  dsimp only
  by_cases hlen : (f :: rest).length < minSlices
  · rw [if_pos hlen]
    refine ⟨⟨fun _ => hlen, fun _ => rfl⟩, fun hge => absurd hlen (by omega)⟩
  · rw [if_neg hlen, checkDims_eq]
    have hexi : (∃ g ∈ rest, g.rows ≠ f.rows ∨ g.cols ≠ f.cols) ↔
        (∃ g ∈ f :: rest, g.rows ≠ f.rows ∨ g.cols ≠ f.cols) := by
      constructor
      · rintro ⟨x, hx, hxd⟩
        exact ⟨x, List.mem_cons_of_mem f hx, hxd⟩
      · rintro ⟨x, hx, hxd⟩
        rcases List.mem_cons.mp hx with hxg | hxr
        · subst hxg
          rcases hxd with h | h <;> exact absurd rfl h
        · exact ⟨x, hxr, hxd⟩
    by_cases hex : ∃ g ∈ rest, g.rows ≠ f.rows ∨ g.cols ≠ f.cols
    · rw [if_pos hex]
      refine ⟨⟨fun h => ?_, fun h => ?_⟩, fun _ => ⟨⟨fun _ => hexi.mp hex, fun _ => rfl⟩,
        ⟨fun h => Bool.noConfusion (congrArg Prod.fst h), fun h => ?_⟩⟩⟩
      · exact absurd (congrArg Prod.snd h).symm (insufficientMsg_ne _ _)
      · exact absurd h hlen
      · obtain ⟨x, hx, hxd⟩ := hex
        obtain ⟨h1, h2⟩ := h x (List.mem_cons_of_mem f hx)
        rcases hxd with hd | hd
        · exact absurd h1 hd
        · exact absurd h2 hd
    · rw [if_neg hex]
      refine ⟨⟨fun h => Bool.noConfusion (congrArg Prod.fst h), fun h => absurd h hlen⟩,
        fun _ => ⟨⟨fun h => Bool.noConfusion (congrArg Prod.fst h), fun h => ?_⟩,
          ⟨fun _ g hg => ?_, fun _ => rfl⟩⟩⟩
      · exact absurd (hexi.mpr h) hex
      · rcases List.mem_cons.mp hg with hxg | hxr
        · subst hxg; exact ⟨rfl, rfl⟩
        · by_contra hc
          rw [not_and_or] at hc
          exact hex ⟨g, hxr, hc⟩

/-- Identifier of the nine-file fixture series. -/
def uidNine : String := "1.2.3"

/-- A series group of nine identical files. -/
def groupOf9 : List DicomFile := List.replicate 9 (blankFile pathOf1)

/-- A series store holding only the nine-file group. -/
def sdNine : List (String × List DicomFile) := [(uidNine, groupOf9)]

/-- C7 witness: the validation theorem applied to the concrete nine-file
group with a minimum of ten slices reports insufficient slices. -/
theorem c7_validate_witness :
    validate_series sdNine uidNine 10 = ((false : Bool), insufficientMsg 9 10) :=
  (c7_validate sdNine uidNine 10 (blankFile pathOf1)
    (List.replicate 8 (blankFile pathOf1)) (by decide)).1.mpr (by decide)

/-! ### Metadata extraction: DICOMProcessor.extract_metadata -/

/-- The metadata record built by dicom_processor.py lines 118-137.
Descriptive fields are always present (with the Unknown sentinel for a
missing tag); spatial fields are optional. -/
structure SeriesMetadata where
  patient_id : String
  study_date : String
  modality : String
  series_description : String
  manufacturer : String
  number_of_slices : Nat
  image_type : String
  body_part : String
  pixel_spacing : Option (List Rat)
  slice_thickness : Option Rat
  image_position : Option (List Rat)
deriving DecidableEq

/-- The Python idiom str(getattr(dcm, tag, sentinel)): the tag value when
present, the Unknown sentinel when absent. -/
def unknownOr : Option String → String
  | none => "Unknown"
  | some s => s

/-- The Python list comprehension applying float() to every element: the
whole comprehension raises (inner none) when any element fails to parse. -/
def parseAll : List (Option Rat) → Option (List Rat)
  | [] => some []
  | none :: _ => none
  | some q :: rest => (parseAll rest).map fun l => q :: l

/-- Parsing of an optional list-valued numeric tag.  The outer none result
models the raised exception of a present-but-malformed value; some none
models an absent tag whose field is simply omitted. -/
def parseVec (raw : Option (List (Option Rat))) : Option (Option (List Rat)) :=
  match raw with
  | none => some none
  | some l =>
    match parseAll l with
    | some v => some (some v)
    | none => none

/-- Parsing of an optional scalar numeric tag, same convention. -/
def parseScalar (raw : Option (Option Rat)) : Option (Option Rat) :=
  match raw with
  | none => some none
  | some none => none
  | some (some q) => some (some q)

/-- All numeric tags of a file that are present also parse, so the
extraction reaches the end of its try block. -/
def wellFormedNumerics (f : DicomFile) : Bool :=
  (parseVec f.pixelSpacing).isSome && (parseScalar f.sliceThickness).isSome &&
    (parseVec f.imagePositionPatient).isSome

/-- The processor state after discovery and grouping: the flat discovered
file list and the series map in insertion order. -/
structure ProcessorState where
  dicomFiles : List DicomFile
  seriesData : List (String × List DicomFile)
deriving DecidableEq

/-- File selection of dicom_processor.py lines 106-109: the series group
when the argument is a truthy string that is a key of the series map,
otherwise the whole discovered list. -/
def selectFiles (st : ProcessorState) (uid : Option String) : List DicomFile :=
  match uid with
  | none => st.dicomFiles
  | some u =>
    if u.isEmpty then st.dicomFiles
    else
      match st.seriesData.lookup u with
      | some files => files
      | none => st.dicomFiles

/-- The body of extract_metadata on the selected file list
(dicom_processor.py lines 111-145): empty selection returns the empty
record; otherwise the record is read from the first file, and a raised
parse error anywhere in the numeric fields makes the whole extraction
return the empty record, modelled as none. -/
def extractFrom : List DicomFile → Option SeriesMetadata
  | [] => none
  | f :: rest =>
    match parseVec f.pixelSpacing with
    | none => none
    | some ps =>
      match parseScalar f.sliceThickness with
      | none => none
      | some th =>
        match parseVec f.imagePositionPatient with
        | none => none
        | some ip =>
          some
            { patient_id := unknownOr f.patientID
              study_date := unknownOr f.studyDate
              modality := unknownOr f.modality
              series_description := unknownOr f.seriesDescription
              manufacturer := unknownOr f.manufacturer
              number_of_slices := rest.length + 1
              image_type := unknownOr f.imageType
              body_part := unknownOr f.bodyPartExamined
              pixel_spacing := ps
              slice_thickness := th
              image_position := ip }

/-- DICOMProcessor.extract_metadata (dicom_processor.py lines 93-145). -/
def extract_metadata (st : ProcessorState) (uid : Option String) : Option SeriesMetadata :=
  extractFrom (selectFiles st uid)

/-- Helper: extraction from a nonempty list whose head has well-formed
numeric tags yields a record that describes the head and counts the whole
list. -/
theorem extractFrom_cons_of_wellFormed (f : DicomFile) (rest : List DicomFile)
    (hw : wellFormedNumerics f = true) :
    ∃ m, extractFrom (f :: rest) = some m ∧
      m.patient_id = unknownOr f.patientID ∧
      m.study_date = unknownOr f.studyDate ∧
      m.modality = unknownOr f.modality ∧
      m.series_description = unknownOr f.seriesDescription ∧
      m.manufacturer = unknownOr f.manufacturer ∧
      m.image_type = unknownOr f.imageType ∧
      m.body_part = unknownOr f.bodyPartExamined ∧
      m.number_of_slices = rest.length + 1 ∧
      parseVec f.pixelSpacing = some m.pixel_spacing ∧
      parseScalar f.sliceThickness = some m.slice_thickness ∧
      parseVec f.imagePositionPatient = some m.image_position := by
  unfold wellFormedNumerics at hw
  rw [Bool.and_eq_true, Bool.and_eq_true] at hw
  obtain ⟨⟨h1, h2⟩, h3⟩ := hw
  obtain ⟨ps, hps⟩ := Option.isSome_iff_exists.mp h1
  obtain ⟨th, hth⟩ := Option.isSome_iff_exists.mp h2
  obtain ⟨ip, hip⟩ := Option.isSome_iff_exists.mp h3
  refine ⟨{ patient_id := unknownOr f.patientID
            study_date := unknownOr f.studyDate
            modality := unknownOr f.modality
            series_description := unknownOr f.seriesDescription
            manufacturer := unknownOr f.manufacturer
            number_of_slices := rest.length + 1
            image_type := unknownOr f.imageType
            body_part := unknownOr f.bodyPartExamined
            pixel_spacing := ps
            slice_thickness := th
            image_position := ip },
    ?_, rfl, rfl, rfl, rfl, rfl, rfl, rfl, rfl, hps, hth, hip⟩
  simp only [extractFrom, hps, hth, hip]

/-- Helper: extraction aborts entirely when some present numeric tag fails
to parse. -/
theorem extractFrom_cons_of_malformed (f : DicomFile) (rest : List DicomFile)
    (hw : wellFormedNumerics f = false) :
    extractFrom (f :: rest) = none := by
  unfold wellFormedNumerics at hw
  cases hps : parseVec f.pixelSpacing with
  | none => simp only [extractFrom, hps]
  | some ps =>
    cases hth : parseScalar f.sliceThickness with
    | none => simp only [extractFrom, hps, hth]
    | some th =>
      cases hip : parseVec f.imagePositionPatient with
      | none => simp only [extractFrom, hps, hth, hip]
      | some ip =>
        rw [hps, hth, hip] at hw
        exact Bool.noConfusion hw

/-- Series identifier of the malformed-field fixture. -/
def uidOne : String := "s1"

/-- The recorded patient identifier of the fixture file. -/
def pidP1 : String := "P1"

/-- Fixture file whose slice thickness tag is present but malformed, while
its patient identifier is present and every other tag is absent. -/
def fMalformed : DicomFile :=
  { blankFile pathOf1 with patientID := some pidP1, sliceThickness := some none }

/-- The same fixture file with the slice thickness tag absent instead. -/
def fAbsentThickness : DicomFile :=
  { blankFile pathOf1 with patientID := some pidP1 }

/-- Processor state holding only the malformed fixture file. -/
def stMalformed : ProcessorState := ⟨[fMalformed], [(uidOne, [fMalformed])]⟩

/-- Processor state holding only the absent-thickness fixture file. -/
def stAbsentThickness : ProcessorState :=
  ⟨[fAbsentThickness], [(uidOne, [fAbsentThickness])]⟩

/-- C8 counterexample: on a file whose only numeric tag is a present but
malformed slice thickness, extraction returns the empty record instead of
omitting just that field, although the same file with the tag absent
extracts fine.  This contradicts the claim that a malformed single numeric
field is omitted without aborting extraction of the rest of the record. -/
theorem c8_extract_counterexample :
    extract_metadata stMalformed (some uidOne) = none ∧
    fMalformed.sliceThickness = some none ∧
    fMalformed.patientID = some pidP1 ∧
    (extract_metadata stAbsentThickness (some uidOne)).isSome = true := by
  refine ⟨by decide, by decide, by decide, by decide⟩

/-- C8 amended: for a nonempty selection, when every present numeric tag
parses the extraction returns a record in which each missing descriptive
tag is the Unknown sentinel and each absent numeric tag is omitted; but
when some present numeric tag is malformed the whole extraction aborts and
returns the empty record, not a record missing only that field. -/
theorem c8_extract_amended (st : ProcessorState) (uid : Option String)
    (f : DicomFile) (rest : List DicomFile)
    (hsel : selectFiles st uid = f :: rest) :
    (wellFormedNumerics f = true →
      ∃ m, extract_metadata st uid = some m ∧
        (f.patientID = none → m.patient_id = "Unknown") ∧
        (f.modality = none → m.modality = "Unknown") ∧
        (f.seriesDescription = none → m.series_description = "Unknown") ∧
        (f.sliceThickness = none → m.slice_thickness = none) ∧
        (f.pixelSpacing = none → m.pixel_spacing = none) ∧
        (f.imagePositionPatient = none → m.image_position = none) ∧
        m.number_of_slices = rest.length + 1) ∧
    (wellFormedNumerics f = false → extract_metadata st uid = none) := by
  constructor
  · intro hw
    obtain ⟨m, hm, hpat, hsd, hmod, hdesc, hman, hit, hbp, hn, hps, hth, hip⟩ :=
      extractFrom_cons_of_wellFormed f rest hw
    refine ⟨m, ?_, ?_, ?_, ?_, ?_, ?_, ?_, hn⟩
    · rw [extract_metadata, hsel, hm]
    · intro h; rw [hpat, h]; rfl
    · intro h; rw [hmod, h]; rfl
    · intro h; rw [hdesc, h]; rfl
    · intro h
      rw [h] at hth
      exact (Option.some_injective _ hth.symm).symm ▸ rfl
    · intro h
      rw [h] at hps
      exact (Option.some_injective _ hps.symm).symm ▸ rfl
    · intro h
      rw [h] at hip
      exact (Option.some_injective _ hip.symm).symm ▸ rfl
  · intro hw
    rw [extract_metadata, hsel]
    exact extractFrom_cons_of_malformed f rest hw

/-- C8 witness: the amended theorem applied to the absent-thickness fixture
state, giving a record whose thickness field is omitted and whose modality
is the Unknown sentinel. -/
theorem c8_extract_amended_witness :
    ∃ m, extract_metadata stAbsentThickness (some uidOne) = some m ∧
      m.modality = "Unknown" ∧ m.slice_thickness = none := by
  obtain ⟨m, hm, _, hmod, _, hth, _, _, _⟩ :=
    (c8_extract_amended stAbsentThickness (some uidOne) fAbsentThickness []
      (by decide)).1 (by decide)
  exact ⟨m, hm, hmod rfl, hth rfl⟩

/-- Helper: selection with an identifier that is not a key of the series
map falls back to the full discovered list. -/
theorem selectFiles_of_unknown (st : ProcessorState) (u : String)
    (hu : st.seriesData.lookup u = none) :
    selectFiles st (some u) = st.dicomFiles := by
  unfold selectFiles
  dsimp only
  by_cases he : u.isEmpty
  · rw [if_pos he]
  · rw [if_neg he, hu]

/-- C9: extraction with a series identifier that is not a key of the series
map does not fail and does not report a missing series: it silently falls
back to the full discovered file list, so the record describes the first
discovered file and reports the total discovered count as the slice
count. -/
theorem c9_extract_unknown_series (st : ProcessorState) (u : String)
    (f : DicomFile) (rest : List DicomFile)
    (hu : st.seriesData.lookup u = none)
    (hf : st.dicomFiles = f :: rest)
    (hw : wellFormedNumerics f = true) :
    extract_metadata st (some u) = extract_metadata st none ∧
    ∃ m, extract_metadata st (some u) = some m ∧
      m.number_of_slices = st.dicomFiles.length ∧
      m.patient_id = unknownOr f.patientID ∧
      m.modality = unknownOr f.modality ∧
      m.series_description = unknownOr f.seriesDescription := by
  have hsel : selectFiles st (some u) = st.dicomFiles := selectFiles_of_unknown st u hu
  constructor
  · rw [extract_metadata, extract_metadata, hsel]
    rfl
  · obtain ⟨m, hm, hpat, hsd, hmod, hdesc, hman, hit, hbp, hn, hps2, hth2, hip2⟩ :=
      extractFrom_cons_of_wellFormed f rest hw
    refine ⟨m, ?_, ?_, hpat, hmod, hdesc⟩
    · rw [extract_metadata, hsel, hf, hm]
    · rw [hn, hf, List.length_cons]

/-- A series identifier that is a key of no fixture series map. -/
def uidMissing : String := "zz"

/-- C9 witness: the fallback theorem applied to the concrete one-file state
with an identifier that was never grouped. -/
theorem c9_extract_unknown_series_witness :
    extract_metadata stAbsentThickness (some uidMissing) =
      extract_metadata stAbsentThickness none ∧
    ∃ m, extract_metadata stAbsentThickness (some uidMissing) = some m ∧
      m.number_of_slices = stAbsentThickness.dicomFiles.length ∧
      m.patient_id = unknownOr fAbsentThickness.patientID ∧
      m.modality = unknownOr fAbsentThickness.modality ∧
      m.series_description = unknownOr fAbsentThickness.seriesDescription :=
  c9_extract_unknown_series stAbsentThickness uidMissing fAbsentThickness []
    (by decide) rfl (by decide)

/-! ### The job record and its update method (app.py) -/

/-- The ConversionJob dataclass of app.py lines 34-51.  Timestamps are an
abstract monotone clock instead of ISO datetime strings. -/
structure ConversionJob where
  job_id : String
  upload_id : String
  status : String
  progress : Int
  message : String
  stl_file : Option String
  error : Option String
  created_at : Nat
  updated_at : Nat
deriving DecidableEq

/-- The merge guard of one string field of ConversionJob.update: a None or
empty-string argument is skipped by the Python truthiness test, any other
argument replaces the current value. -/
def mergeStr (cur : String) (arg : Option String) : String :=
  match arg with
  | some s => if s.isEmpty then cur else s
  | none => cur

/-- The merge guard of one nullable string field of ConversionJob.update,
same truthiness test. -/
def mergeOptStr (cur : Option String) (arg : Option String) : Option String :=
  match arg with
  | some s => if s.isEmpty then cur else some s
  | none => cur

/-- The merge guard of the progress field of ConversionJob.update: an
is-not-None test only, so a supplied 0 is merged. -/
def mergeInt (cur : Int) (arg : Option Int) : Int :=
  match arg with
  | some p => p
  | none => cur

/-- ConversionJob.update, app.py lines 53-66.  The source assigns the five
guarded fields one after another and then rewrites updated_at; since each
assignment touches a distinct field, the net effect is the simultaneous
record update written here. -/
def ConversionJob.update (j : ConversionJob) (status : Option String)
    (progress : Option Int) (message stl_file error : Option String)
    (now : Nat) : ConversionJob :=
  { job_id := j.job_id
    upload_id := j.upload_id
    status := mergeStr j.status status
    progress := mergeInt j.progress progress
    message := mergeStr j.message message
    stl_file := mergeOptStr j.stl_file stl_file
    error := mergeOptStr j.error error
    created_at := j.created_at
    updated_at := now }

/-- C10: a supplied progress value is always merged, including 0, because
the guard is an is-not-None test; a supplied but empty status, message,
stl_file or error string is silently ignored; and updated_at is rewritten
on every call, even one that changes no field. -/
theorem c10_job_update (j : ConversionJob) (now : Nat) (p : Int) :
    (ConversionJob.update j none (some p) none none none now).progress = p ∧
    (ConversionJob.update j none (some 0) none none none now).progress = 0 ∧
    ConversionJob.update j (some "") none (some "") (some "") (some "") now =
      { j with updated_at := now } ∧
    ConversionJob.update j none none none none none now =
      { j with updated_at := now } ∧
    (ConversionJob.update j (some "") none none none none now).status = j.status := by
  exact ⟨rfl, rfl, rfl, rfl, rfl⟩

/-! ### The background pipeline: process_conversion_job (app.py) -/

/-- Python truthiness of a two-element tuple.  A tuple is falsy only when
empty, so the (flag, message) pair returned by validate_series is always
truthy, whatever the flag: the test at app.py line 126 can never fire. -/
def pyTupleTruthy (_p : Bool × String) : Bool := true

/-- Error message raised at app.py lines 134-137 when the Slicer executable
is missing (the interpolated installation path is elided). -/
def slicerNotFoundErr : String :=
  "3D Slicer not found. Please install 3D Slicer and set SLICER_PATH environment variable."

/-- The environment of one pipeline run: the discovery and grouping results
for the upload directory, whether the Slicer executable exists, the
observation of the external run, and the state of the declared output
file. -/
structure PipelineEnv where
  dicomFiles : List DicomFile
  seriesData : List (String × List DicomFile)
  slicerFound : Bool
  runObs : RunObservation
  outputExists : Bool
  outputSize : Nat
  outputName : String
deriving DecidableEq

/-- Result of one pipeline run: the final job record, whether the converter
was invoked, and the ordered sequence of progress percentages written to
the job. -/
structure PipelineResult where
  job : ConversionJob
  converterInvoked : Bool
  progressTrace : List Int
deriving DecidableEq

/-- The progress sub-callback of app.py lines 140-141 applied to each
callback invocation of the converter in order: the percentage and message
are written to the job verbatim. -/
def applyCallbackWrites (j : ConversionJob) (ws : List CallbackWrite) (t : Nat) :
    ConversionJob :=
  match ws with
  | [] => j
  | (p, m) :: rest =>
    applyCallbackWrites (ConversionJob.update j none (some p) (some m) none none t) rest (t + 1)

/-- The except clause of app.py lines 174-184: mark the job failed, keep
the progress, and record the raised message in the error field. -/
def failJob (j : ConversionJob) (msg : String) (now : Nat) : ConversionJob :=
  ConversionJob.update j (some "failed") none (some "Conversion failed") none (some msg) now

/-- process_conversion_job, app.py lines 69-184, as a function of the run
environment: each update call of the source appears in order with its
literal percentage, any raised error jumps to failJob, and the converter
callback percentages are written verbatim through applyCallbackWrites.
The clock arguments 1, 2, 3, ... stand for the successive datetime.now
calls. -/
def process_conversion_job (env : PipelineEnv) (j0 : ConversionJob) : PipelineResult :=
  let j1 := j0.update (some "processing") (some 5) (some "Initializing...") none none 1
  let j2 := j1.update none (some 10) (some "Scanning DICOM files...") none none 2
  match env.dicomFiles with
  | [] => ⟨failJob j2 "No DICOM files found in upload" 3, false, [5, 10]⟩
  | _ :: _ =>
    let j3 := j2.update none (some 20)
      (some ("Found " ++ toString env.dicomFiles.length ++ " DICOM files")) none none 3
    let j4 := j3.update none (some 30) (some "Organizing DICOM series...") none none 4
    match env.seriesData with
    | [] => ⟨failJob j4 "No valid DICOM series found" 5, false, [5, 10, 20, 30]⟩
    | (uid, _) :: _ =>
      let _meta := extract_metadata ⟨env.dicomFiles, env.seriesData⟩ (some uid)
      let j5 := j4.update none (some 40) (some "Validating DICOM series...") none none 5
      if pyTupleTruthy (validate_series env.seriesData uid 10) = false then
        ⟨failJob j5 "DICOM series validation failed" 6, false, [5, 10, 20, 30, 40]⟩
      else
        let j6 := j5.update none (some 50)
          (some "Initializing 3D Slicer converter...") none none 6
        if env.slicerFound = false then
          ⟨failJob j6 slicerNotFoundErr 7, false, [5, 10, 20, 30, 40, 50]⟩
        else
          let j7 := j6.update none (some 60) (some "Converting to STL...") none none 7
          let conv := convert_dicom_to_stl env.slicerFound env.runObs
            env.outputExists env.outputSize
          let j8 := applyCallbackWrites j7 conv.callbackWrites 8
          let trace := [5, 10, 20, 30, 40, 50, 60] ++ conv.callbackWrites.map Prod.fst
          if conv.result.success = false then
            ⟨failJob j8 ("Conversion failed: " ++ conv.result.message) 20, true, trace⟩
          else if env.outputExists = false then
            ⟨failJob j8 "STL file was not created" 20, true, trace⟩
          else
            let j9 := j8.update (some "completed") (some 100)
              (some ("Conversion completed successfully (" ++
                toString env.outputSize ++ " bytes)"))
              (some env.outputName) none 20
            ⟨j9, true, trace ++ [100]⟩

/-- Output file name of the pipeline fixtures. -/
def outName : String := "out.stl"

/-- Job identifier of the pipeline fixtures. -/
def jidStr : String := "job-1"

/-- Upload identifier of the pipeline fixtures. -/
def uploadStr : String := "up-1"

/-- The freshly created job record of app.py lines 353-359. -/
def jobStart : ConversionJob :=
  ⟨jidStr, uploadStr, "pending", 0, "Job created, waiting to start...", none, none, 0, 0⟩

/-- Pipeline environment whose only series has nine files, below the
minimum of ten, with a working Slicer and a successful external run. -/
def envNine : PipelineEnv :=
  ⟨groupOf9, [(uidNine, groupOf9)], true, obsPlainExitZero, true, 1234, outName⟩

/-- C2: the selected nine-file series fails validation, yet the pipeline
invokes the external tool and completes the job, because the test at
app.py line 126 applies Python not to the (flag, message) tuple returned
by validate_series, and a two-element tuple is always truthy, so the
raise is unreachable.  The claim describes the documented intent; the code
has a dead validation gate. -/
theorem c2_validation_gate_dead :
    (validate_series envNine.seriesData uidNine 10).1 = false ∧
    pyTupleTruthy (validate_series envNine.seriesData uidNine 10) = true ∧
    (process_conversion_job envNine jobStart).job.status = "completed" ∧
    (process_conversion_job envNine jobStart).converterInvoked = true := by
  exact ⟨by decide, rfl, by decide, by decide⟩

/-- A twelve-file fixture series. -/
def groupOf12 : List DicomFile := List.replicate 12 (blankFile pathOf2)

/-- Identifier of the twelve-file fixture series. -/
def uidTwelve : String := "1.2.4"

/-- Pipeline environment with a valid twelve-file series, a working Slicer,
a successful external run, and an existing output file. -/
def envTwelve : PipelineEnv :=
  ⟨groupOf12, [(uidTwelve, groupOf12)], true, obsPlainExitZero, true, 4321, outName⟩

/-- C3 counterexample: a successful run ends completed, never failed, yet
its progress sequence is 5, 10, 20, 30, 40, 50, 60, 10, 20, 90, 100, 100,
which is not non-decreasing: the converter checkpoints are written
verbatim, so progress falls from 60 back to 10.  This contradicts the
claim that progress is non-decreasing except on the transition to failed
and that checkpoint percentages are remapped into the remaining range. -/
theorem c3_progress_counterexample :
    (process_conversion_job envTwelve jobStart).job.status = "completed" ∧
    (process_conversion_job envTwelve jobStart).progressTrace =
      [5, 10, 20, 30, 40, 50, 60, 10, 20, 90, 100, 100] ∧
    ¬ List.Sorted (fun a b : Int => a ≤ b)
      (process_conversion_job envTwelve jobStart).progressTrace := by
  exact ⟨by decide, by decide, by decide⟩

/-- Helper: the converter on a found Slicer, a successful script run and an
existing output file reports exactly the checkpoints 10, 20, 90, 100. -/
theorem convert_of_success (obs : RunObservation) (sz : Nat)
    (h4 : (run_slicer_script obs).success = true) :
    convert_dicom_to_stl true obs true sz =
      ⟨⟨true, "Successfully created STL file (" ++ toString sz ++ " bytes)"⟩,
        [(10, "Preparing conversion script..."), (20, "Running 3D Slicer conversion..."),
          (90, "Conversion complete, finalizing..."), (100, "Conversion successful")]⟩ := by
  unfold convert_dicom_to_stl
  rw [if_pos h4]
  rfl

/-- C3 amended: the pipeline writes the progress values 5, 10, 20, 30, 40,
50, 60 itself, then the converter checkpoints 10, 20, 90, 100 are written
verbatim through the callback (no remapping into the remaining range), and
finally 100 on completion; consequently the progress sequence of every
successful run drops from 60 back to 10 and is not non-decreasing, even
though the job ends completed, not failed. -/
theorem c3_progress_amended (env : PipelineEnv) (j0 : ConversionJob)
    (h1 : env.dicomFiles ≠ []) (h2 : env.seriesData ≠ [])
    (h3 : env.slicerFound = true)
    (h4 : (run_slicer_script env.runObs).success = true)
    (h5 : env.outputExists = true) :
    (convert_dicom_to_stl env.slicerFound env.runObs env.outputExists
        env.outputSize).callbackWrites.map Prod.fst = [10, 20, 90, 100] ∧
    (process_conversion_job env j0).progressTrace =
      [5, 10, 20, 30, 40, 50, 60] ++ [10, 20, 90, 100] ++ [100] ∧
    ¬ List.Sorted (fun a b : Int => a ≤ b) (process_conversion_job env j0).progressTrace ∧
    (process_conversion_job env j0).job.status = "completed" := by
  obtain ⟨d, ds, hd⟩ := List.exists_cons_of_ne_nil h1
  obtain ⟨sp, ss, hs⟩ := List.exists_cons_of_ne_nil h2
  obtain ⟨uid, grp⟩ := sp
  have h3f : ¬ env.slicerFound = false := by
    rw [h3]
    intro hh
    exact Bool.noConfusion hh
  have h5f : ¬ env.outputExists = false := by
    rw [h5]
    intro hh
    exact Bool.noConfusion hh
  have hconv : convert_dicom_to_stl env.slicerFound env.runObs env.outputExists
      env.outputSize =
      ⟨⟨true, "Successfully created STL file (" ++ toString env.outputSize ++ " bytes)"⟩,
        [(10, "Preparing conversion script..."), (20, "Running 3D Slicer conversion..."),
          (90, "Conversion complete, finalizing..."), (100, "Conversion successful")]⟩ := by
    rw [h3, h5]
    exact convert_of_success env.runObs env.outputSize h4
  unfold process_conversion_job
  rw [hd, hs]
  dsimp only [pyTupleTruthy]
  rw [if_neg (fun hh => Bool.noConfusion hh), if_neg h3f, hconv]
  dsimp only
  rw [if_neg (fun hh => Bool.noConfusion hh), if_neg h5f]
  refine ⟨rfl, rfl, ?_, rfl⟩
  exact (by decide : ¬ List.Sorted (fun a b : Int => a ≤ b)
    ([5, 10, 20, 30, 40, 50, 60] ++ [10, 20, 90, 100] ++ [100]))

/-- C3 witness: the amended progress theorem applied to the concrete
nine-file environment. -/
theorem c3_progress_amended_witness :
    (convert_dicom_to_stl envNine.slicerFound envNine.runObs envNine.outputExists
        envNine.outputSize).callbackWrites.map Prod.fst = [10, 20, 90, 100] ∧
    (process_conversion_job envNine jobStart).progressTrace =
      [5, 10, 20, 30, 40, 50, 60] ++ [10, 20, 90, 100] ++ [100] ∧
    ¬ List.Sorted (fun a b : Int => a ≤ b)
      (process_conversion_job envNine jobStart).progressTrace ∧
    (process_conversion_job envNine jobStart).job.status = "completed" :=
  c3_progress_amended envNine jobStart (by decide) (by decide) rfl (by decide) rfl

/-! ### Lock discipline of the shared job map (app.py) -/

/-- Kind of one access to the shared job store: a membership test or lookup
of the job map, an insertion into the map, a write of fields of a stored
job record, or a read of a full job snapshot. -/
inductive AccessKind
  | mapLookup
  | mapInsert
  | fieldWrite
  | snapshotRead
deriving DecidableEq

/-- One access to the shared job store, with the app.py line it transcribes
and whether the code performs it while holding jobs_lock. -/
structure RegistryAccess where
  line : Nat
  kind : AccessKind
  underLock : Bool
deriving DecidableEq

/-- The job-store accesses of the worker on its success path, in program
order (app.py lines 88-172): the initial lookup happens inside a with
jobs_lock block, but every subsequent field update through job.update,
including the callback writes at line 141 and the completion write at line
165, runs with no lock held. -/
def workerSuccessAccesses : List RegistryAccess :=
  [⟨93, AccessKind.mapLookup, true⟩,
   ⟨98, AccessKind.fieldWrite, false⟩,
   ⟨101, AccessKind.fieldWrite, false⟩,
   ⟨108, AccessKind.fieldWrite, false⟩,
   ⟨111, AccessKind.fieldWrite, false⟩,
   ⟨125, AccessKind.fieldWrite, false⟩,
   ⟨130, AccessKind.fieldWrite, false⟩,
   ⟨141, AccessKind.fieldWrite, false⟩,
   ⟨144, AccessKind.fieldWrite, false⟩,
   ⟨165, AccessKind.fieldWrite, false⟩]

/-- The job-store accesses of the worker exception handler (app.py lines
178-184): lookup and failure write, both inside a with jobs_lock block. -/
def workerFailureAccesses : List RegistryAccess :=
  [⟨179, AccessKind.mapLookup, true⟩,
   ⟨180, AccessKind.fieldWrite, true⟩]

/-- The job-store accesses of the request handlers: job insertion at
submission (line 362), lookup and snapshot in the status endpoint (lines
394-399), and the snapshot loop of the listing endpoint (lines 461-462),
all inside with jobs_lock blocks. -/
def requestAccesses : List RegistryAccess :=
  [⟨362, AccessKind.mapInsert, true⟩,
   ⟨395, AccessKind.mapLookup, true⟩,
   ⟨399, AccessKind.snapshotRead, true⟩,
   ⟨462, AccessKind.snapshotRead, true⟩]

/-- Every transcribed access to the shared job store. -/
def allRegistryAccesses : List RegistryAccess :=
  workerSuccessAccesses ++ workerFailureAccesses ++ requestAccesses

/-- The claim of full lock coverage, as a check over the transcription. -/
def everyAccessLocked (l : List RegistryAccess) : Bool :=
  l.all fun a => a.underLock

/-- C4 counterexample: the transcription of the code contains job-store
accesses outside the lock; in particular the field update at app.py line
98 (status processing, progress 5) is performed by the worker with no lock
held, contradicting the claim that every read and write of the shared job
map, including worker field updates, happens under the lock. -/
theorem c4_lock_counterexample :
    everyAccessLocked allRegistryAccesses = false ∧
    (⟨98, AccessKind.fieldWrite, false⟩ : RegistryAccess) ∈ workerSuccessAccesses := by
  exact ⟨rfl, by decide⟩

/-- C4 amended: the map-level operations (lookup, insertion) and every
request-handler access run under the lock, and so does the worker failure
handler; but every field update of the worker success path runs outside
the lock, so a reader holding the lock can still observe a partially
applied multi-field update. -/
theorem c4_lock_amended :
    (allRegistryAccesses.filter fun a =>
      a.kind == AccessKind.mapLookup || a.kind == AccessKind.mapInsert).all
        (fun a => a.underLock) = true ∧
    (requestAccesses.all fun a => a.underLock) = true ∧
    (workerFailureAccesses.all fun a => a.underLock) = true ∧
    (workerSuccessAccesses.filter fun a => a.kind == AccessKind.fieldWrite).all
      (fun a => !a.underLock) = true ∧
    everyAccessLocked workerSuccessAccesses = false := by
  exact ⟨rfl, rfl, rfl, rfl, rfl⟩

/-! ### Filesystem side effects of one conversion attempt
(slicer_converter.py) -/

/-- One filesystem operation on the script directory performed during a
conversion attempt. -/
inductive FsOp
  | writeFile (name : String)
  | removeFile (name : String)
  | launchTool
  | readFile (name : String)
deriving DecidableEq

/-- The script file name of slicer_converter.py lines 336-337, unique per
whole-second timestamp. -/
def scriptFileName (ts : Nat) : String := "convert_" ++ toString ts ++ ".py"

/-- The error-marker path derived from the script path at line 398. -/
def markerFileName (ts : Nat) : String := "convert_" ++ toString ts ++ ".error"

/-- How one run of the external tool ends: normal completion with an
observation, a timeout that kills the process, or an exception before or
at launch. -/
inductive RunPath
  | completedRun (obs : RunObservation)
  | timedOut
  | launchFailed
deriving DecidableEq

/-- Filesystem operations of _run_slicer_script (slicer_converter.py lines
345-418): launch the tool; on normal completion consult the error marker
only on the no-success-signal branch; on timeout kill the process; on a
launch exception do nothing.  No branch touches the script file. -/
def run_slicer_script_ops (ts : Nat) (p : RunPath) : List FsOp :=
  match p with
  | RunPath.completedRun obs =>
    FsOp.launchTool ::
      (if obs.returnCode == 0 || containsSUCCESS obs.stdout then []
       else
         match obs.errorMarker with
         | some _ => [FsOp.readFile (markerFileName ts)]
         | none => [])
  | RunPath.timedOut => [FsOp.launchTool]
  | RunPath.launchFailed => []

/-- Filesystem operations of one convert_dicom_to_stl attempt: the script
is written by _create_conversion_script (lines 335-343) and then the run
operations happen.  Neither method contains any deletion. -/
def convert_fs_ops (ts : Nat) (p : RunPath) : List FsOp :=
  FsOp.writeFile (scriptFileName ts) :: run_slicer_script_ops ts p

/-- Effect of one operation on the set of files in the script directory. -/
def applyFsOp (fs : List String) : FsOp → List String
  | FsOp.writeFile n => if n ∈ fs then fs else fs ++ [n]
  | FsOp.removeFile n => fs.erase n
  | FsOp.launchTool => fs
  | FsOp.readFile _ => fs

/-- The script directory after a sequence of operations. -/
def runFsOps (fs : List String) (ops : List FsOp) : List String :=
  ops.foldl applyFsOp fs

/-- Helper: no branch of the run emits a file deletion. -/
theorem removeFile_not_mem_run_ops (ts : Nat) (p : RunPath) (n : String) :
    FsOp.removeFile n ∉ run_slicer_script_ops ts p := by
  intro hmem
  cases p with
  | completedRun obs =>
    unfold run_slicer_script_ops at hmem
    rcases List.mem_cons.mp hmem with h | h
    · exact FsOp.noConfusion h
    · by_cases hsig : (obs.returnCode == 0 || containsSUCCESS obs.stdout) = true
      · rw [if_pos hsig] at h
        exact List.not_mem_nil _ h
      · rw [if_neg hsig] at h
        cases hm : obs.errorMarker with
        | some m =>
          rw [hm] at h
          rcases List.mem_singleton.mp h with h2
          exact FsOp.noConfusion h2
        | none =>
          rw [hm] at h
          exact List.not_mem_nil _ h
  | timedOut =>
    rcases List.mem_singleton.mp hmem with h
    exact FsOp.noConfusion h
  | launchFailed => exact List.not_mem_nil _ hmem

/-- Helper: a file present in the directory survives any operation sequence
containing no deletion. -/
theorem mem_runFsOps_of_no_remove (s : String) (fs : List String) (ops : List FsOp)
    (hs : s ∈ fs) (hno : ∀ n, FsOp.removeFile n ∉ ops) : s ∈ runFsOps fs ops := by
  induction ops generalizing fs with
  | nil => exact hs
  | cons op rest ih =>
    have hop : ∀ n, op ≠ FsOp.removeFile n :=
      fun n h => hno n (h ▸ List.mem_cons_self op rest)
    have hrest : ∀ n, FsOp.removeFile n ∉ rest :=
      fun n hn => hno n (List.mem_cons_of_mem op hn)
    have hstep : s ∈ applyFsOp fs op := by
      cases op with
      | writeFile n =>
        unfold applyFsOp
        dsimp only
        by_cases h : n ∈ fs
        · rw [if_pos h]; exact hs
        · rw [if_neg h]; exact List.mem_append_left _ hs
      | removeFile n => exact absurd rfl (hop n)
      | launchTool => exact hs
      | readFile n => exact hs
    exact ih (applyFsOp fs op) hstep hrest

/-- C5 counterexample: on a normally completed successful run, the sequence
of filesystem operations of the attempt contains no deletion of the
generated script, and the script file is still in the directory after the
attempt, contradicting the claim that the script is deleted after
execution whatever the outcome. -/
theorem c5_script_counterexample :
    FsOp.removeFile (scriptFileName 0) ∉
      convert_fs_ops 0 (RunPath.completedRun obsPlainExitZero) ∧
    scriptFileName 0 ∈
      runFsOps [] (convert_fs_ops 0 (RunPath.completedRun obsPlainExitZero)) := by
  exact ⟨by decide, by decide⟩

/-- C5 amended: in every outcome (normal completion with any observation,
timeout, or launch exception) the attempt deletes no file at all, and the
generated script remains in the script directory after the attempt, so one
script accumulates per attempt. -/
theorem c5_script_amended (ts : Nat) (p : RunPath) (n : String) (fs : List String) :
    FsOp.removeFile n ∉ convert_fs_ops ts p ∧
    scriptFileName ts ∈ runFsOps fs (convert_fs_ops ts p) := by
  constructor
  · intro hmem
    rcases List.mem_cons.mp hmem with h | h
    · exact FsOp.noConfusion h
    · exact removeFile_not_mem_run_ops ts p n h
  · have h1 : scriptFileName ts ∈ applyFsOp fs (FsOp.writeFile (scriptFileName ts)) := by
      unfold applyFsOp
      dsimp only
      by_cases h : scriptFileName ts ∈ fs
      · rw [if_pos h]; exact h
      · rw [if_neg h]; exact List.mem_append_right _ (List.mem_singleton_self _)
    exact mem_runFsOps_of_no_remove (scriptFileName ts)
      (applyFsOp fs (FsOp.writeFile (scriptFileName ts)))
      (run_slicer_script_ops ts p) h1 (removeFile_not_mem_run_ops ts p)

/-- C5 witness: the amended theorem applied to a concrete timed-out attempt
starting from an empty directory. -/
theorem c5_script_amended_witness :
    FsOp.removeFile (scriptFileName 7) ∉ convert_fs_ops 7 RunPath.timedOut ∧
    scriptFileName 7 ∈ runFsOps [] (convert_fs_ops 7 RunPath.timedOut) :=
  c5_script_amended 7 RunPath.timedOut (scriptFileName 7) []
